import Mathlib

/-!
Verification of the ultrasonic distance-sensor firmware (trigger/echo state
machine).  The definitions below are a shallow embedding of the C sources:
the `measurement_state_t` enum, the global `g_state` structure, the two
interrupt callbacks (`echo_callback`, `timeout_callback`), the trigger pulse
generator, and the three phases of the foreground `main` loop (console
character handling, trigger issue, result consumption).

Modelling conventions:
* `absolute_time_t` timestamps are integers (microseconds since boot);
  `absolute_time_diff_us a b` is `b - a`, as in the platform SDK.
* The one-shot alarm service is modelled by the boolean field `alarm_armed`:
  `add_alarm_in_us` arms it, `cancel_alarm` disarms it, and `alarm_fire`
  delivers `timeout_callback` exactly when the alarm is still armed (a
  cancelled or already-fired one-shot never delivers).
* Interrupts are serialized with respect to the foreground loop: a run is a
  sequence of loop iterations and interrupt deliveries in some order.
* `printf` results are captured as values: the trigger phase returns its GPIO
  actions as a `List TrigAction`, the consumption phase returns the reported
  lines as a `List ReportLine` (the wall-clock `HH:MM:SS` prefix is an input,
  the RTC being an external collaborator).  The float arithmetic
  `(duration_us * 0.0343f) / 2.0f` is modelled over the rationals with the
  exact constant 0.0343.
-/

/-- TRIGGER_PIN from the source. -/
def TRIGGER_PIN : Nat := 28

/-- ECHO_PIN from the source. -/
def ECHO_PIN : Nat := 27

/-- MEASUREMENT_TIMEOUT_US from the source: the timeout budget in microseconds. -/
def MEASUREMENT_TIMEOUT_US : Nat := 30000

/-- CMD_BUFFER_SIZE from the source. -/
def CMD_BUFFER_SIZE : Nat := 64

/-- GPIO_IRQ_EDGE_RISE flag (0x8). -/
def GPIO_IRQ_EDGE_RISE : Nat := 8

/-- GPIO_IRQ_EDGE_FALL flag (0x4). -/
def GPIO_IRQ_EDGE_FALL : Nat := 4

/-- The measurement_state_t enum of the source. -/
inductive measurement_state_t
  | STATE_IDLE
  | STATE_WAITING_FOR_ECHO
  | STATE_MEASUREMENT_COMPLETE
  | STATE_MEASUREMENT_ERROR
  deriving DecidableEq

open measurement_state_t

/-- The NUL character used as a C string terminator and by memset. -/
def nulChar : Char := Char.ofNat 0

/-- The system_state_t struct of the source.  Timestamps are microsecond
integers; `alarm_armed` models whether the one-shot alarm scheduled by
`add_alarm_in_us` is still pending (see the header comment). -/
structure system_state_t where
  current_state : measurement_state_t
  echo_start_time : Int
  echo_end_time : Int
  measurement_alarm_id : Nat
  alarm_armed : Bool
  system_running : Bool
  cmd_buffer : List Char
  cmd_index : Nat
  deriving DecidableEq

/-- The initial value of the global `g_state` (static storage, so the fields
not named in the initializer are zero). -/
def g_state : system_state_t :=
  { current_state := STATE_IDLE
    echo_start_time := 0
    echo_end_time := 0
    measurement_alarm_id := 0
    alarm_armed := false
    system_running := false
    cmd_buffer := List.replicate CMD_BUFFER_SIZE nulChar
    cmd_index := 0 }

/-- absolute_time_diff_us from the SDK: microseconds from `a` to `b`, signed. -/
def absolute_time_diff_us (a b : Int) : Int := b - a

/-- Body of `timeout_callback`: if the state is still WAITING_FOR_ECHO the
measurement is declared an error; otherwise nothing happens.  (The C function
returns 0, i.e. the alarm is not rescheduled.) -/
def timeout_callback (s : system_state_t) : system_state_t :=
  if s.current_state = STATE_WAITING_FOR_ECHO then
    { s with current_state := STATE_MEASUREMENT_ERROR }
  else s

/-- cancel_alarm: disarm the pending one-shot (idempotent). -/
def cancel_alarm (s : system_state_t) : system_state_t :=
  { s with alarm_armed := false }

/-- Delivery of the armed one-shot alarm by the timer service: runs
`timeout_callback` if the alarm is still armed (it fires at most once and a
cancelled alarm never fires), consuming the one-shot. -/
def alarm_fire (s : system_state_t) : system_state_t :=
  if s.alarm_armed = true then
    { timeout_callback s with alarm_armed := false }
  else s

/-- Rising-edge half of `echo_callback`: record the current time as
`echo_start_time` whenever the RISE bit is set in `events`. -/
def echo_rise_update (events : Nat) (now : Int) (s : system_state_t) : system_state_t :=
  if events &&& GPIO_IRQ_EDGE_RISE ≠ 0 then { s with echo_start_time := now } else s

/-- Falling-edge half of `echo_callback`: record the current time as
`echo_end_time` whenever the FALL bit is set; then, only if the state is
WAITING_FOR_ECHO, cancel the alarm and transition to MEASUREMENT_COMPLETE. -/
def echo_fall_update (events : Nat) (now : Int) (s : system_state_t) : system_state_t :=
  if events &&& GPIO_IRQ_EDGE_FALL ≠ 0 then
    if s.current_state = STATE_WAITING_FOR_ECHO then
      { cancel_alarm { s with echo_end_time := now } with
        current_state := STATE_MEASUREMENT_COMPLETE }
    else { s with echo_end_time := now }
  else s

/-- echo_callback from the source: guarded on the GPIO number, then the rise
branch followed by the fall branch (the fall branch reads a state the rise
branch never touches, so sequencing them matches the C control flow). -/
def echo_callback (gpio events : Nat) (now : Int) (s : system_state_t) : system_state_t :=
  if gpio = ECHO_PIN then echo_fall_update events now (echo_rise_update events now s)
  else s

/-- The GPIO/timer side effects of the trigger phase, kept as data. -/
inductive TrigAction
  | gpio_put (pin : Nat) (value : Nat)
  | sleep_us (us : Nat)
  | add_alarm_in_us (us : Nat)
  deriving DecidableEq

/-- send_trigger_pulse from the source: drive the trigger pin high, hold for
10 microseconds, drive it low. -/
def send_trigger_pulse : List TrigAction :=
  [TrigAction.gpio_put TRIGGER_PIN 1, TrigAction.sleep_us 10,
   TrigAction.gpio_put TRIGGER_PIN 0]

/-- The trigger phase of the main loop (`if (g_state.system_running &&
g_state.current_state == STATE_IDLE) { ... }`): issue the pulse, move to
WAITING_FOR_ECHO and arm the timeout alarm.  `aid` is the fresh alarm id
returned by `add_alarm_in_us`. -/
def triggerStep (aid : Nat) (s : system_state_t) : system_state_t × List TrigAction :=
  if s.system_running = true ∧ s.current_state = STATE_IDLE then
    ({ s with current_state := STATE_WAITING_FOR_ECHO
              measurement_alarm_id := aid
              alarm_armed := true },
     send_trigger_pulse ++ [TrigAction.add_alarm_in_us MEASUREMENT_TIMEOUT_US])
  else (s, [])

/-- The exact rational value of the source constant 0.0343f (cm per µs). -/
def SPEED_OF_SOUND_CM_PER_US : ℚ := 343 / 10000

/-- Result computation from the consumption phase:
`(duration_us * 0.0343f) / 2.0f`, over ℚ. -/
def distance_cm (duration_us : Int) : ℚ :=
  ((duration_us : ℚ) * SPEED_OF_SOUND_CM_PER_US) / 2

/-- One reported line: `time - <value> cm` on success, `time - Falha` on
timeout.  The `time` prefix comes from the external RTC. -/
inductive ReportLine
  | distance (time : String) (value_cm : ℚ)
  | falha (time : String)
  deriving DecidableEq

/-- The consumption phase of the main loop: when the state is terminal
(MEASUREMENT_COMPLETE or MEASUREMENT_ERROR), print exactly one line — the
computed distance on completion, the failure marker on error — and reset the
state to IDLE.  `ts` is the formatted RTC time.  (The trailing
`sleep_ms(1000)` pacing when `system_running` holds has no state effect and
is not modelled.) -/
def consumeStep (ts : String) (s : system_state_t) : system_state_t × List ReportLine :=
  if s.current_state = STATE_MEASUREMENT_COMPLETE ∨
     s.current_state = STATE_MEASUREMENT_ERROR then
    if s.current_state = STATE_MEASUREMENT_COMPLETE then
      ({ s with current_state := STATE_IDLE },
       [ReportLine.distance ts
          (distance_cm (absolute_time_diff_us s.echo_start_time s.echo_end_time))])
    else
      ({ s with current_state := STATE_IDLE }, [ReportLine.falha ts])
  else (s, [])

/-- The characters of the literal command "start". -/
def startCmd : List Char := ['s', 't', 'a', 'r', 't']

/-- The characters of the literal command "stop". -/
def stopCmd : List Char := ['s', 't', 'o', 'p']

/-- The C string held in a buffer: the characters before the first NUL, as
read by `strcmp`. -/
def cstr (buf : List Char) : List Char := buf.takeWhile (fun ch => ch ≠ nulChar)

/-- Command dispatch on a completed line: after the terminator is written at
`cmd_index`, compare against "start" / "stop" and set or clear
`system_running`; an unknown command only prints a message. -/
def process_command (s : system_state_t) : system_state_t :=
  if cstr (s.cmd_buffer.set s.cmd_index nulChar) = startCmd then
    { s with system_running := true }
  else if cstr (s.cmd_buffer.set s.cmd_index nulChar) = stopCmd then
    { s with system_running := false }
  else s

/-- The console phase of the main loop for one received character `c`.
Returns the new state, whether the C code executes `continue` (skipping the
rest of the iteration: this happens exactly on an end-of-line with an empty
buffer), and the list of buffer writes `(index, character)` performed — the
terminator write on a completed line, or the data write of `c`; a character
arriving with the buffer full (`cmd_index = CMD_BUFFER_SIZE - 1`) performs no
write at all.  After a completed line the index is reset and the buffer
cleared (`memset`). -/
def charStep (c : Char) (s : system_state_t) :
    system_state_t × Bool × List (Nat × Char) :=
  if c = '\r' ∨ c = '\n' then
    if s.cmd_index = 0 then (s, true, [])
    else
      ({ process_command s with
          cmd_index := 0
          cmd_buffer := List.replicate CMD_BUFFER_SIZE nulChar },
       false, [(s.cmd_index, nulChar)])
  else if s.cmd_index < CMD_BUFFER_SIZE - 1 then
    ({ s with cmd_buffer := s.cmd_buffer.set s.cmd_index c
              cmd_index := s.cmd_index + 1 },
     false, [(s.cmd_index, c)])
  else (s, false, [])

/-- Fold of the console phase over a whole input character sequence,
collecting every buffer write performed along the way. -/
def charTrace (cs : List Char) (s : system_state_t) :
    system_state_t × List (Nat × Char) :=
  match cs with
  | [] => (s, [])
  | c :: rest =>
    ((charTrace rest (charStep c s).1).1,
     (charStep c s).2.2 ++ (charTrace rest (charStep c s).1).2)

/-- One foreground loop iteration after the console phase: the trigger phase
followed by the consumption phase, returning the final state, the GPIO/timer
actions and the reported lines. -/
def loopIterRest (aid : Nat) (ts : String) (s : system_state_t) :
    system_state_t × List TrigAction × List ReportLine :=
  ((consumeStep ts (triggerStep aid s).1).1,
   (triggerStep aid s).2,
   (consumeStep ts (triggerStep aid s).1).2)

/-- One full foreground loop iteration: an optional console character (the
non-blocking `getchar_timeout_us`), then — unless the console phase executed
`continue` — the trigger phase and the consumption phase. -/
def loopIter (copt : Option Char) (aid : Nat) (ts : String) (s : system_state_t) :
    system_state_t × List TrigAction × List ReportLine :=
  match copt with
  | none => loopIterRest aid ts s
  | some c =>
    if (charStep c s).2.1 = true then ((charStep c s).1, [], [])
    else loopIterRest aid ts (charStep c s).1

/-- A state with a measurement in flight: WAITING_FOR_ECHO with the timeout
alarm armed, as left by the trigger phase.  Used to instantiate theorems. -/
def wEcho : system_state_t :=
  { g_state with current_state := STATE_WAITING_FOR_ECHO, alarm_armed := true }

/-- First measurement cycle of a two-cycle trace: trigger from the initial
state with the run flag set (fresh alarm id 1), rising edge at 100 µs,
falling edge at 700 µs. -/
def c6_cycle1 : system_state_t :=
  echo_callback ECHO_PIN GPIO_IRQ_EDGE_FALL 700
    (echo_callback ECHO_PIN GPIO_IRQ_EDGE_RISE 100
      (triggerStep 1 { g_state with system_running := true }).1)

/-- Second cycle of the trace: consume the first result, trigger again
(fresh alarm id 2), then a falling edge at 5000 µs arrives with no rising
edge in this cycle. -/
def c6_cycle2 : system_state_t :=
  echo_callback ECHO_PIN GPIO_IRQ_EDGE_FALL 5000
    (triggerStep 2 (consumeStep "10:00:01" c6_cycle1).1).1

/-- A state with a measurement in flight and the literal `stop` sitting in
the command buffer (four characters typed, line not yet terminated). -/
def c9_state : system_state_t :=
  { wEcho with
      cmd_buffer := 's' :: 't' :: 'o' :: 'p' :: List.replicate 60 nulChar
      cmd_index := 4 }

/-- C3: when the timeout callback fires it sets the state to
MEASUREMENT_ERROR exactly when the state is WAITING_FOR_ECHO; in every other
state (IDLE, COMPLETE, ERROR) the callback changes nothing, so a late-firing
timeout never overwrites a COMPLETE result. -/
theorem timeout_callback_error_iff_waiting (s : system_state_t) :
    (s.current_state = STATE_WAITING_FOR_ECHO →
      (timeout_callback s).current_state = STATE_MEASUREMENT_ERROR) ∧
    (s.current_state ≠ STATE_WAITING_FOR_ECHO → timeout_callback s = s) := by
  constructor
  · intro h
    simp [timeout_callback, h]
  · intro h
    simp [timeout_callback, h]

/-- Witness for C3: a COMPLETE state is untouched by the timeout callback. -/
theorem timeout_callback_error_iff_waiting_witness :
    timeout_callback { g_state with current_state := STATE_MEASUREMENT_COMPLETE } =
      { g_state with current_state := STATE_MEASUREMENT_COMPLETE } :=
  (timeout_callback_error_iff_waiting
    { g_state with current_state := STATE_MEASUREMENT_COMPLETE }).2 (by decide)

/-- C1: from WAITING_FOR_ECHO with the alarm armed, serializing one falling
edge and one alarm delivery in either order yields exactly one terminal
state: falling edge first gives MEASUREMENT_COMPLETE (the cancelled alarm is
then a no-op), alarm first gives MEASUREMENT_ERROR (the late edge only
records a timestamp) — and the two terminals are distinct, so the cycle
leaves WAITING_FOR_ECHO exactly once, never reaching both outcomes and never
neither. -/
theorem awaiting_echo_exactly_one_terminal (s : system_state_t) (t u : Int)
    (h : s.current_state = STATE_WAITING_FOR_ECHO) (ha : s.alarm_armed = true) :
    (alarm_fire (echo_callback ECHO_PIN GPIO_IRQ_EDGE_FALL t s)).current_state =
      STATE_MEASUREMENT_COMPLETE ∧
    (echo_callback ECHO_PIN GPIO_IRQ_EDGE_FALL u (alarm_fire s)).current_state =
      STATE_MEASUREMENT_ERROR ∧
    STATE_MEASUREMENT_COMPLETE ≠ STATE_MEASUREMENT_ERROR := by
  have hfr : GPIO_IRQ_EDGE_FALL &&& GPIO_IRQ_EDGE_RISE = 0 := by decide
  have hff : GPIO_IRQ_EDGE_FALL &&& GPIO_IRQ_EDGE_FALL ≠ 0 := by decide
  have hf0 : GPIO_IRQ_EDGE_FALL ≠ 0 := by decide
  refine ⟨?_, ?_, by decide⟩
  · simp [echo_callback, echo_rise_update, echo_fall_update, cancel_alarm,
      alarm_fire, timeout_callback, h, hfr, hff, hf0]
  · simp [echo_callback, echo_rise_update, echo_fall_update, cancel_alarm,
      alarm_fire, timeout_callback, h, ha, hfr, hff, hf0]

/-- Witness for C1 at the in-flight state with both events at time 700. -/
theorem awaiting_echo_exactly_one_terminal_witness :
    (alarm_fire (echo_callback ECHO_PIN GPIO_IRQ_EDGE_FALL 700 wEcho)).current_state =
      STATE_MEASUREMENT_COMPLETE ∧
    (echo_callback ECHO_PIN GPIO_IRQ_EDGE_FALL 700 (alarm_fire wEcho)).current_state =
      STATE_MEASUREMENT_ERROR ∧
    STATE_MEASUREMENT_COMPLETE ≠ STATE_MEASUREMENT_ERROR :=
  awaiting_echo_exactly_one_terminal wEcho 700 700 (by decide) (by decide)

/-- C2: any echo-line event whose FALL bit is set records `now` as the end
timestamp unconditionally; it cancels the armed alarm and moves the state to
MEASUREMENT_COMPLETE exactly when the state is WAITING_FOR_ECHO, and in every
other state it leaves the state, the alarm and the run flag untouched. -/
theorem echo_fall_records_end_completes_iff_waiting
    (s : system_state_t) (events : Nat) (now : Int)
    (hf : events &&& GPIO_IRQ_EDGE_FALL ≠ 0) :
    ((echo_callback ECHO_PIN events now s).echo_end_time = now) ∧
    (s.current_state = STATE_WAITING_FOR_ECHO →
      (echo_callback ECHO_PIN events now s).current_state =
        STATE_MEASUREMENT_COMPLETE ∧
      (echo_callback ECHO_PIN events now s).alarm_armed = false) ∧
    (s.current_state ≠ STATE_WAITING_FOR_ECHO →
      (echo_callback ECHO_PIN events now s).current_state = s.current_state ∧
      (echo_callback ECHO_PIN events now s).alarm_armed = s.alarm_armed ∧
      (echo_callback ECHO_PIN events now s).system_running = s.system_running ∧
      (echo_callback ECHO_PIN events now s).measurement_alarm_id =
        s.measurement_alarm_id) := by
  by_cases hr : events &&& GPIO_IRQ_EDGE_RISE = 0 <;>
    by_cases hs : s.current_state = STATE_WAITING_FOR_ECHO <;>
      simp [echo_callback, echo_rise_update, echo_fall_update, cancel_alarm,
        hf, hr, hs]

/-- Witness for C2: a falling edge at time 42 on an idle machine records the
end timestamp but leaves the state IDLE. -/
theorem echo_fall_records_end_completes_iff_waiting_witness :
    ((echo_callback ECHO_PIN GPIO_IRQ_EDGE_FALL 42 g_state).echo_end_time = 42) ∧
    ((echo_callback ECHO_PIN GPIO_IRQ_EDGE_FALL 42 g_state).current_state =
        STATE_IDLE ∧
      (echo_callback ECHO_PIN GPIO_IRQ_EDGE_FALL 42 g_state).alarm_armed = false ∧
      (echo_callback ECHO_PIN GPIO_IRQ_EDGE_FALL 42 g_state).system_running = false ∧
      (echo_callback ECHO_PIN GPIO_IRQ_EDGE_FALL 42 g_state).measurement_alarm_id = 0) :=
  ⟨(echo_fall_records_end_completes_iff_waiting g_state GPIO_IRQ_EDGE_FALL 42
      (by decide)).1,
   (echo_fall_records_end_completes_iff_waiting g_state GPIO_IRQ_EDGE_FALL 42
      (by decide)).2.2 (by decide)⟩

/-- C4: the machine is single-flight.  In any foreground loop iteration —
with or without a console character — whose state is not IDLE, the trigger
phase emits no GPIO action and arms no alarm (whatever the run flag), and
conversely any iteration that does emit trigger actions was in IDLE with the
run flag set. -/
theorem single_flight_trigger_only_when_idle
    (copt : Option Char) (s : system_state_t) (aid : Nat) (ts : String) :
    (s.current_state ≠ STATE_IDLE → (loopIter copt aid ts s).2.1 = []) ∧
    ((loopIter none aid ts s).2.1 ≠ [] →
      s.system_running = true ∧ s.current_state = STATE_IDLE) := by
  have hss : stopCmd ≠ startCmd := by decide
  have hpres : ∀ (c : Char) (u : system_state_t),
      (charStep c u).1.current_state = u.current_state := by
    intro c u
    by_cases hnl : c = '\r' ∨ c = '\n'
    · by_cases h0 : u.cmd_index = 0
      · simp [charStep, hnl, h0]
      · by_cases hstart : cstr (u.cmd_buffer.set u.cmd_index nulChar) = startCmd
        · simp [charStep, hnl, h0, process_command, hstart]
        · by_cases hstop : cstr (u.cmd_buffer.set u.cmd_index nulChar) = stopCmd <;>
            simp [charStep, hnl, h0, process_command, hstart, hstop, hss]
    · by_cases hlt : u.cmd_index < CMD_BUFFER_SIZE - 1 <;> simp [charStep, hnl, hlt]
  constructor
  · intro h
    match copt with
    | none => simp [loopIter, loopIterRest, triggerStep, h]
    | some c =>
      by_cases hcont : (charStep c s).2.1 = true
      · simp [loopIter, hcont]
      · have hc : (charStep c s).1.current_state ≠ STATE_IDLE := by
          rw [hpres c s]; exact h
        simp [loopIter, loopIterRest, triggerStep, hcont, hc]
  · intro h
    by_cases hc : s.system_running = true ∧ s.current_state = STATE_IDLE
    · exact hc
    · exact absurd (by simp [loopIter, loopIterRest, triggerStep, hc]) h

/-- Witness for C4: with a measurement in flight, a run-mode iteration emits
no pulse. -/
theorem single_flight_trigger_only_when_idle_witness :
    (loopIter none 1 "10:00:00"
      { wEcho with system_running := true }).2.1 = [] :=
  (single_flight_trigger_only_when_idle none
    { wEcho with system_running := true } 1 "10:00:00").1 (by decide)

/-- C5: on the IDLE-to-WAITING_FOR_ECHO transition the loop drives the
trigger pin high, holds 10 µs, drives it low, and arms the one-shot timeout
with the fixed 30000 µs (30 ms) budget. -/
theorem idle_transition_pulse_and_timeout_budget
    (s : system_state_t) (aid : Nat) (ts : String)
    (h1 : s.system_running = true) (h2 : s.current_state = STATE_IDLE) :
    (loopIter none aid ts s).2.1 =
      [TrigAction.gpio_put TRIGGER_PIN 1, TrigAction.sleep_us 10,
       TrigAction.gpio_put TRIGGER_PIN 0, TrigAction.add_alarm_in_us 30000] ∧
    (loopIter none aid ts s).1.current_state = STATE_WAITING_FOR_ECHO ∧
    (loopIter none aid ts s).1.alarm_armed = true ∧
    MEASUREMENT_TIMEOUT_US = 30000 := by
  refine ⟨?_, ?_, ?_, by decide⟩ <;>
    simp [loopIter, loopIterRest, triggerStep, consumeStep, send_trigger_pulse,
      h1, h2, MEASUREMENT_TIMEOUT_US]

/-- Witness for C5 from the initial state with the run flag set. -/
theorem idle_transition_pulse_and_timeout_budget_witness :
    (loopIter none 1 "10:00:00" { g_state with system_running := true }).2.1 =
      [TrigAction.gpio_put TRIGGER_PIN 1, TrigAction.sleep_us 10,
       TrigAction.gpio_put TRIGGER_PIN 0, TrigAction.add_alarm_in_us 30000] :=
  (idle_transition_pulse_and_timeout_budget
    { g_state with system_running := true } 1 "10:00:00" rfl rfl).1

/-- C7: a cycle with a rising edge at `t0` and a falling edge at `t0 + 600`
reports the distance `(600 · 0.0343) / 2 = 10.29` cm; the computation is
exactly `duration · 0.0343 / 2` on the signed duration and applies no
clamping, so a negative duration is reported as a negative distance. -/
theorem distance_is_duration_times_speed_halved
    (s : system_state_t) (t0 : Int) (ts : String)
    (h : s.current_state = STATE_WAITING_FOR_ECHO) :
    (consumeStep ts (echo_callback ECHO_PIN GPIO_IRQ_EDGE_FALL (t0 + 600)
        (echo_callback ECHO_PIN GPIO_IRQ_EDGE_RISE t0 s))).2 =
      [ReportLine.distance ts (1029 / 100)] ∧
    distance_cm 600 = 1029 / 100 ∧
    (∀ d : Int, distance_cm d = (d : ℚ) * 343 / 20000) ∧
    (∀ d : Int, d < 0 → distance_cm d < 0) := by
  have hrr : GPIO_IRQ_EDGE_RISE &&& GPIO_IRQ_EDGE_RISE ≠ 0 := by decide
  have hrf : GPIO_IRQ_EDGE_RISE &&& GPIO_IRQ_EDGE_FALL = 0 := by decide
  have hfr : GPIO_IRQ_EDGE_FALL &&& GPIO_IRQ_EDGE_RISE = 0 := by decide
  have hff : GPIO_IRQ_EDGE_FALL &&& GPIO_IRQ_EDGE_FALL ≠ 0 := by decide
  have hr0 : GPIO_IRQ_EDGE_RISE ≠ 0 := by decide
  have hf0 : GPIO_IRQ_EDGE_FALL ≠ 0 := by decide
  have hval : ∀ d : Int, distance_cm d = (d : ℚ) * 343 / 20000 := by
    intro d
    simp only [distance_cm, SPEED_OF_SOUND_CM_PER_US]
    ring
  refine ⟨?_, by norm_num [hval 600], hval, ?_⟩
  · simp [echo_callback, echo_rise_update, echo_fall_update, cancel_alarm,
      consumeStep, absolute_time_diff_us, hrr, hrf, hfr, hff, hr0, hf0, h]
    norm_num [hval]
  · intro d hd
    have hdq : (d : ℚ) < 0 := by exact_mod_cast hd
    rw [hval d]
    have := mul_neg_of_neg_of_pos hdq (show (0 : ℚ) < 343 by norm_num)
    linarith

/-- Witness for C7: the 600 µs round trip measured from the in-flight state
reports 10.29 cm. -/
theorem distance_is_duration_times_speed_halved_witness :
    (consumeStep "10:00:00" (echo_callback ECHO_PIN GPIO_IRQ_EDGE_FALL (100 + 600)
        (echo_callback ECHO_PIN GPIO_IRQ_EDGE_RISE 100 wEcho))).2 =
      [ReportLine.distance "10:00:00" (1029 / 100)] :=
  (distance_is_duration_times_speed_halved wEcho 100 "10:00:00" (by decide)).1

/-- C8: consuming a terminal state emits exactly one reported line — the
distance line when the state is MEASUREMENT_COMPLETE, the single failure
marker when it is MEASUREMENT_ERROR (the only error kind) — and then resets
the state to IDLE; no third outcome exists and the loop continues. -/
theorem terminal_state_one_report_then_idle
    (s : system_state_t) (ts : String)
    (h : s.current_state = STATE_MEASUREMENT_COMPLETE ∨
         s.current_state = STATE_MEASUREMENT_ERROR) :
    (consumeStep ts s).1.current_state = STATE_IDLE ∧
    (consumeStep ts s).2.length = 1 ∧
    (s.current_state = STATE_MEASUREMENT_COMPLETE →
      (consumeStep ts s).2 =
        [ReportLine.distance ts
          (distance_cm (absolute_time_diff_us s.echo_start_time s.echo_end_time))]) ∧
    (s.current_state = STATE_MEASUREMENT_ERROR →
      (consumeStep ts s).2 = [ReportLine.falha ts]) := by
  rcases h with h | h <;> simp [consumeStep, h]

/-- Witness for C8: consuming an errored cycle prints the failure marker and
returns to IDLE. -/
theorem terminal_state_one_report_then_idle_witness :
    (consumeStep "10:00:00"
      { g_state with current_state := STATE_MEASUREMENT_ERROR }).1.current_state =
        STATE_IDLE ∧
    (consumeStep "10:00:00"
      { g_state with current_state := STATE_MEASUREMENT_ERROR }).2 =
        [ReportLine.falha "10:00:00"] :=
  ⟨(terminal_state_one_report_then_idle
      { g_state with current_state := STATE_MEASUREMENT_ERROR } "10:00:00"
      (Or.inr rfl)).1,
   (terminal_state_one_report_then_idle
      { g_state with current_state := STATE_MEASUREMENT_ERROR } "10:00:00"
      (Or.inr rfl)).2.2.2 rfl⟩

/-- C6 counterexample: starting a new cycle does not clear the timestamps.
In a concrete two-cycle run — cycle one completes with a rising edge at 100
and a falling edge at 700, cycle two gets only a falling edge at 5000 — the
second cycle reaches MEASUREMENT_COMPLETE with `echo_start_time` still 100,
the first cycle's value, contradicting the claim that the timestamps read at
the second cycle's Complete are never the first cycle's. -/
theorem trigger_does_not_clear_timestamps_cex :
    c6_cycle1.current_state = STATE_MEASUREMENT_COMPLETE ∧
    c6_cycle1.echo_start_time = 100 ∧
    c6_cycle2.current_state = STATE_MEASUREMENT_COMPLETE ∧
    c6_cycle2.echo_start_time = 100 := by
  refine ⟨rfl, rfl, rfl, rfl⟩

/-- C6 amended: the Idle → AwaitingEcho transition leaves both prior
timestamps in place (no clearing happens), and the end timestamp at a
Complete state is always the completing falling edge's time — only the start
timestamp can leak from the prior cycle, as the counterexample shows. -/
theorem trigger_preserves_prior_timestamps
    (aid : Nat) (s : system_state_t) (now : Int) :
    (triggerStep aid s).1.echo_start_time = s.echo_start_time ∧
    (triggerStep aid s).1.echo_end_time = s.echo_end_time ∧
    (echo_callback ECHO_PIN GPIO_IRQ_EDGE_FALL now s).echo_end_time = now := by
  have hfr : GPIO_IRQ_EDGE_FALL &&& GPIO_IRQ_EDGE_RISE = 0 := by decide
  have hf0 : GPIO_IRQ_EDGE_FALL ≠ 0 := by decide
  refine ⟨?_, ?_, ?_⟩
  · by_cases hc : s.system_running = true ∧ s.current_state = STATE_IDLE <;>
      simp [triggerStep, hc]
  · by_cases hc : s.system_running = true ∧ s.current_state = STATE_IDLE <;>
      simp [triggerStep, hc]
  · by_cases hs : s.current_state = STATE_WAITING_FOR_ECHO <;>
      simp [echo_callback, echo_rise_update, echo_fall_update, cancel_alarm,
        hfr, hf0, hs]

/-- C9: processing the `stop` line clears only the run flag (the measurement
fields — state, both timestamps, the alarm id and the armed one-shot — are
untouched), result consumption never reads the run flag, and a measurement
in flight when `stop` is processed is still reported exactly once: here the
armed timeout fires and the single failure line is emitted, after which the
state is IDLE. -/
theorem stop_clears_only_run_flag_inflight_still_reported
    (s : system_state_t) (ts : String)
    (h1 : s.cmd_index ≠ 0)
    (h2 : cstr (s.cmd_buffer.set s.cmd_index nulChar) = stopCmd)
    (h3 : s.current_state = STATE_WAITING_FOR_ECHO)
    (h4 : s.alarm_armed = true) :
    ((charStep '\n' s).1.system_running = false) ∧
    ((charStep '\n' s).1.current_state = s.current_state) ∧
    ((charStep '\n' s).1.echo_start_time = s.echo_start_time) ∧
    ((charStep '\n' s).1.echo_end_time = s.echo_end_time) ∧
    ((charStep '\n' s).1.measurement_alarm_id = s.measurement_alarm_id) ∧
    ((charStep '\n' s).1.alarm_armed = s.alarm_armed) ∧
    (∀ (u : system_state_t) (b : Bool),
      (consumeStep ts { u with system_running := b }).2 = (consumeStep ts u).2) ∧
    ((consumeStep ts (alarm_fire (charStep '\n' s).1)).2 = [ReportLine.falha ts]) ∧
    ((consumeStep ts (alarm_fire (charStep '\n' s).1)).1.current_state =
      STATE_IDLE) := by
  have hsn : stopCmd ≠ startCmd := by decide
  have hs1 : (charStep '\n' s).1 =
      { s with system_running := false, cmd_index := 0,
               cmd_buffer := List.replicate CMD_BUFFER_SIZE nulChar } := by
    simp [charStep, h1, process_command, h2, hsn]
  have hind : ∀ (u : system_state_t) (b : Bool),
      (consumeStep ts { u with system_running := b }).2 = (consumeStep ts u).2 := by
    intro u b
    by_cases hc : u.current_state = STATE_MEASUREMENT_COMPLETE <;>
      by_cases he : u.current_state = STATE_MEASUREMENT_ERROR <;>
        simp [consumeStep, hc, he]
  refine ⟨?_, ?_, ?_, ?_, ?_, ?_, hind, ?_, ?_⟩ <;>
    simp [hs1, alarm_fire, timeout_callback, consumeStep, h3, h4]

/-- One console character preserves the buffer-index bound and performs only
in-bounds writes. -/
theorem charStep_index_writes_bound (c : Char) (s : system_state_t)
    (h : s.cmd_index ≤ CMD_BUFFER_SIZE - 1) :
    (charStep c s).1.cmd_index ≤ CMD_BUFFER_SIZE - 1 ∧
    ∀ w ∈ (charStep c s).2.2, w.1 < CMD_BUFFER_SIZE := by
  have hb : CMD_BUFFER_SIZE = 64 := rfl
  by_cases hnl : c = '\r' ∨ c = '\n'
  · by_cases h0 : s.cmd_index = 0
    · simp [charStep, hnl, h0]
    · simp [charStep, hnl, h0]
      omega
  · by_cases hlt : s.cmd_index < CMD_BUFFER_SIZE - 1
    · simp [charStep, hnl, hlt]
      omega
    · simp [charStep, hnl, hlt]
      exact h

/-- The whole console phase keeps the index within the bound and every
collected write in bounds. -/
theorem charTrace_index_writes_bound (cs : List Char) :
    ∀ s : system_state_t, s.cmd_index ≤ CMD_BUFFER_SIZE - 1 →
      (charTrace cs s).1.cmd_index ≤ CMD_BUFFER_SIZE - 1 ∧
      ∀ w ∈ (charTrace cs s).2, w.1 < CMD_BUFFER_SIZE := by
  induction cs with
  | nil =>
    intro s h
    exact ⟨h, by simp [charTrace]⟩
  | cons c rest ih =>
    intro s h
    have hc := charStep_index_writes_bound c s h
    have hr := ih (charStep c s).1 hc.1
    refine ⟨hr.1, ?_⟩
    intro w hw
    simp only [charTrace, List.mem_append] at hw
    rcases hw with hw | hw
    · exact hc.2 w hw
    · exact hr.2 w hw

/-- C10: over any console input sequence the command index never exceeds
CMD_BUFFER_SIZE − 1 and every buffer write (data byte or terminator) lands
at an index below CMD_BUFFER_SIZE; a data character arriving with the line
full is dropped without any write, and an empty line (end-of-line with index
0) leaves the state unchanged and processes no command. -/
theorem cmd_buffer_index_and_writes_in_bounds
    (cs : List Char) (s : system_state_t)
    (h : s.cmd_index ≤ CMD_BUFFER_SIZE - 1) :
    (charTrace cs s).1.cmd_index ≤ CMD_BUFFER_SIZE - 1 ∧
    (∀ w ∈ (charTrace cs s).2, w.1 < CMD_BUFFER_SIZE) ∧
    (s.cmd_index = 0 → charStep '\n' s = (s, true, [])) ∧
    (∀ c : Char, ¬(c = '\r' ∨ c = '\n') → s.cmd_index = CMD_BUFFER_SIZE - 1 →
      charStep c s = (s, false, [])) := by
  refine ⟨(charTrace_index_writes_bound cs s h).1,
    (charTrace_index_writes_bound cs s h).2, ?_, ?_⟩
  · intro h0
    simp [charStep, h0]
  · intro c hnl hfull
    simp [charStep, hnl, hfull]

/-- Witness for C10 on a concrete "stop" line typed from the initial state. -/
theorem cmd_buffer_index_and_writes_in_bounds_witness :
    (charTrace ['s', 't', 'o', 'p', '\n'] g_state).1.cmd_index ≤
      CMD_BUFFER_SIZE - 1 ∧
    charStep '\n' g_state = (g_state, true, []) :=
  ⟨(cmd_buffer_index_and_writes_in_bounds ['s', 't', 'o', 'p', '\n'] g_state
      (by decide)).1,
   (cmd_buffer_index_and_writes_in_bounds [] g_state (by decide)).2.2.1 rfl⟩

/-- Witness for C9: processing the buffered `stop` line on an in-flight
measurement clears the run flag, and the cycle is still reported (one
failure line) when the armed timeout later fires. -/
theorem stop_clears_only_run_flag_inflight_still_reported_witness :
    ((charStep '\n' c9_state).1.system_running = false) ∧
    ((consumeStep "10:00:30" (alarm_fire (charStep '\n' c9_state).1)).2 =
      [ReportLine.falha "10:00:30"]) :=
  ⟨(stop_clears_only_run_flag_inflight_still_reported c9_state "10:00:30"
      (by decide) (by decide) (by decide) (by decide)).1,
   (stop_clears_only_run_flag_inflight_still_reported c9_state "10:00:30"
      (by decide) (by decide) (by decide) (by decide)).2.2.2.2.2.2.2.1⟩
